import Mathlib

/-!
Verification of `IntegrationUtils.wait_for_repo_status_paused`
(src/integration_utils.py), the bounded polling loop that waits for a
repository entry inside an integration configuration to reach status
"PAUSED".

The embedding models Python values (the JSON-shaped snapshots returned by
`get_all_agent_configuration`) as `PyVal`, the fetch collaborator as a
function from the cycle index to either a snapshot or a transport error,
and wall-clock time in integer milliseconds: the `k`-th fetch consumes
`fetchLat k` ms and each `asyncio.sleep(interval_ms / 1000)` consumes
`interval_ms` ms.  The `while` loop is run on explicit fuel since for
`interval_ms = 0` and zero latency the source loop need not terminate;
every theorem below supplies sufficient fuel explicitly.
-/

/-- Python values as they occur in the configuration snapshots: ints,
strings, lists and string-keyed dicts (modelled as association lists,
first binding wins, matching `dict.get`). -/
inductive PyVal : Type where
  | int : Int → PyVal
  | str : String → PyVal
  | list : List PyVal → PyVal
  | dict : List (String × PyVal) → PyVal

/-- Python truthiness (`not config`, `not matching_item` in the source)
for the value shapes the model covers. -/
def pyTruthy : PyVal → Bool
  | .int n => n != 0
  | .str s => s != ""
  | .list l => !l.isEmpty
  | .dict d => !d.isEmpty

/-- Truthiness of `next(..., None)` results: `None` is falsy. -/
def pyNotOpt : Option PyVal → Bool
  | none => true
  | some v => !pyTruthy v

/-- Python `x == n` where `x : Optional[PyVal]` came from `dict.get` (so
`None` when the key is absent) and `n` is an `int`; values of any other
shape compare unequal to an int, and `None == n` is `False`. -/
def optEqInt : Option PyVal → Int → Bool
  | some (.int m), n => m == n
  | _, _ => false

/-- Python `x == s` where `x : Optional[PyVal]` came from `dict.get` and
`s` is a `str`. -/
def optEqStr : Option PyVal → String → Bool
  | some (.str t), s => t == s
  | _, _ => false

/-- Python `v == "PAUSED"`-style comparison of a dict value against a
string literal (source line 117). -/
def pyEqStr : PyVal → String → Bool
  | .str t, s => t == s
  | _, _ => false

/-- Python `next((x for x in l if p x), None)` where evaluating the
predicate may itself raise (`x.get(...)` on a non-dict raises
`AttributeError`, modelled as `Except.error ()`). -/
def findFirst (p : PyVal → Except Unit Bool) : List PyVal → Except Unit (Option PyVal)
  | [] => .ok none
  | v :: vs =>
    match p v with
    | .error e => .error e
    | .ok true => .ok (some v)
    | .ok false => findFirst p vs

/-- The generator predicate of source line 105:
`c.get("integrationId") == integration_id`. -/
def configPred (integration_id : Int) : PyVal → Except Unit Bool
  | .dict d => .ok (optEqInt (d.lookup "integrationId") integration_id)
  | _ => .error ()

/-- The generator predicate of source line 110:
`item.get("name") == repository_name`. -/
def itemPred (repository_name : String) : PyVal → Except Unit Bool
  | .dict d => .ok (optEqStr (d.lookup "name") repository_name)
  | _ => .error ()

/-- Source line 103, `response.get("configuration", [])`, followed by the
requirement that the result be a Python list so the generator of line 105
can iterate it; `none` models a Python runtime type error (a non-dict
response, or a non-list `configuration` value). -/
def getConfigList : PyVal → Option (List PyVal)
  | .dict d =>
    match d.lookup "configuration" with
    | none => some []
    | some (.list l) => some l
    | some _ => none
  | _ => none

/-- Source line 107, `config.get("items")` viewed through
`isinstance(..., list)`: `some` exactly when the field is present and is a
list. -/
def itemsOf (d : List (String × PyVal)) : Option (List PyVal) :=
  match d.lookup "items" with
  | some (.list l) => some l
  | _ => none

/-- Python `isinstance(config.get("items"), list)` on a `next(..., None)`
result. -/
def optItemsIsList : Option PyVal → Bool
  | some (.dict d) => (itemsOf d).isSome
  | _ => false

/-- Terminal outcome of one `wait_for_repo_status_paused` invocation.
`success` carries the returned `matching_item`; `valueError` the two
`ValueError` raises (source lines 108 and 113); `timeoutErr` the
`TimeoutError` of line 123; `keyError` the unguarded `matching_item["status"]`
access of lines 115 and 117; `typeError` any other Python runtime error on
ill-shaped data (`AttributeError` / `TypeError`); `transport` an error raised
by the fetch collaborator itself, carried unmodified. -/
inductive Outcome (ε : Type) : Type where
  | success : PyVal → Outcome ε
  | valueError : String → Outcome ε
  | timeoutErr : String → Outcome ε
  | keyError : String → Outcome ε
  | typeError : Outcome ε
  | transport : ε → Outcome ε

/-- Result of one loop-body evaluation: terminate with an outcome, or fall
through to the `asyncio.sleep` (status present but not yet the target). -/
inductive CycleResult (ε : Type) : Type where
  | done : Outcome ε → CycleResult ε
  | notYet : CycleResult ε

/-- Message of the `ValueError` at source line 108. -/
def invalid_config_msg : String :=
  "❌ Invalid integration configuration or missing items list"

/-- Message of the `ValueError` at source line 113. -/
def not_found_msg (repository_name : String) : String :=
  "❌ Repository '" ++ repository_name ++ "' not found in integration items."

/-- Message of the `TimeoutError` at source line 123; `timeout_ms // 1000`
is Python floor division, i.e. `Int.fdiv`. -/
def timeout_message (repository_name : String) (timeout_ms : Int) : String :=
  "⏱️ Timeout: Repo '" ++ repository_name ++ "' status did not become 'PAUSED' within "
    ++ toString (Int.fdiv timeout_ms 1000) ++ "s"

/-- One evaluation of the loop body (source lines 102–121) on an
already-fetched `response`, up to but excluding the sleep:
`config_list = response.get("configuration", [])`;
`config = next((c for c in config_list if c.get("integrationId") == integration_id), None)`;
`if not config or not isinstance(config.get("items"), list): raise ValueError(...)`;
`matching_item = next((item for item in config["items"] if item.get("name") == repository_name), None)`;
`if not matching_item: raise ValueError(...)`;
the logger's `matching_item["status"]` access (KeyError when absent);
`if matching_item["status"] == "PAUSED": return matching_item`;
otherwise fall through to the sleep. -/
def poll_cycle (ε : Type) (response : PyVal) (integration_id : Int)
    (repository_name : String) : CycleResult ε :=
  match getConfigList response with
  | none => .done .typeError
  | some config_list =>
    match findFirst (configPred integration_id) config_list with
    | .error _ => .done .typeError
    | .ok config =>
      if pyNotOpt config || !optItemsIsList config then
        .done (.valueError invalid_config_msg)
      else
        match config with
        | some (.dict d) =>
          match itemsOf d with
          | some items =>
            match findFirst (itemPred repository_name) items with
            | .error _ => .done .typeError
            | .ok matching_item =>
              if pyNotOpt matching_item then
                .done (.valueError (not_found_msg repository_name))
              else
                match matching_item with
                | some (.dict m) =>
                  match m.lookup "status" with
                  | none => .done (.keyError "status")
                  | some st =>
                    if pyEqStr st "PAUSED" then .done (.success (.dict m))
                    else .notYet
                | _ => .done .typeError
          | none => .done .typeError
        | _ => .done .typeError

/-- The fetch collaborator: result and wall-clock latency (in ms) of the
`k`-th call to `self.bito_api.get_all_agent_configuration(workspace_id,
integration_id)`; `workspace_id` and `integration_id` are passed through
unchanged on every cycle, so the environment closes over them. -/
structure Env (ε : Type) : Type where
  fetch : Nat → Except ε PyVal
  fetchLat : Nat → Nat

/-- The polling loop of the source (lines 100–123), entered at cycle `k`
with `elapsed` milliseconds on the clock since `start_time`.  Returns the
outcome together with the number of fetch calls and of sleeps performed
from this point on, or `none` when `fuel` loop iterations do not suffice.
The deadline check `(time.time() - start_time) * 1000 < timeout_ms`
becomes `(elapsed : Int) < timeout_ms`. -/
def wait_from (env : Env ε) (integration_id : Int) (repository_name : String)
    (timeout_ms : Int) (interval_ms : Nat) :
    Nat → Nat → Nat → Option (Outcome ε × Nat × Nat)
  | 0, _, _ => none
  | fuel + 1, k, elapsed =>
    if (elapsed : Int) < timeout_ms then
      match env.fetch k with
      | .error e => some (.transport e, 1, 0)
      | .ok response =>
        match poll_cycle ε response integration_id repository_name with
        | .done o => some (o, 1, 0)
        | .notYet =>
          match wait_from env integration_id repository_name timeout_ms interval_ms
              fuel (k + 1) (elapsed + env.fetchLat k + interval_ms) with
          | none => none
          | some (o, f, s) => some (o, f + 1, s + 1)
    else
      some (.timeoutErr (timeout_message repository_name timeout_ms), 0, 0)

/-- The method `IntegrationUtils.wait_for_repo_status_paused` (source lines 69–123):
record `start_time`, then run the loop from cycle 0 with zero elapsed
time.  The extra `fuel` bounds the number of loop iterations the model is
willing to unfold. -/
def wait_for_repo_status_paused (env : Env ε) (integration_id : Int)
    (repository_name : String) (timeout_ms : Int) (interval_ms : Nat)
    (fuel : Nat) : Option (Outcome ε × Nat × Nat) :=
  wait_from env integration_id repository_name timeout_ms interval_ms fuel 0 0

/-- Elapsed milliseconds on the model clock when the deadline check of
cycle `k` runs: the latencies of the first `k` fetches plus `k` sleeps. -/
def elapsed_at (env : Env ε) (interval_ms : Nat) : Nat → Nat
  | 0 => 0
  | k + 1 => elapsed_at env interval_ms k + env.fetchLat k + interval_ms

/-- Number of poll cycles the loop runs when the status never matches,
every fetch is instantaneous, `timeout_ms > 0` and `interval_ms > 0`:
the ceiling of `timeout_ms / interval_ms`. -/
def ceil_cycles (timeout_ms : Int) (interval_ms : Nat) : Nat :=
  (timeout_ms.toNat + interval_ms - 1) / interval_ms

example : pyTruthy (.dict []) = false := by decide

example :
    poll_cycle Unit
      (.dict [("configuration", .list [.dict [("integrationId", .int 456),
        ("items", .list [.dict [("name", .str "org/repo"), ("status", .str "PAUSED")]])]])])
      456 "org/repo"
      = .done (.success (.dict [("name", .str "org/repo"), ("status", .str "PAUSED")])) := rfl

example :
    wait_for_repo_status_paused
      (Env.mk (fun _ => .ok (.dict [("configuration", .list [])])) (fun _ => 0) : Env Unit)
      456 "org/repo" 15000 1000 3
      = some (.valueError invalid_config_msg, 1, 0) := rfl

example :
    wait_for_repo_status_paused
      (Env.mk (fun _ => .ok (.dict [("configuration", .list [.dict [("integrationId", .int 456),
        ("items", .list [.dict [("name", .str "org/repo"), ("status", .str "DISCOVERED")]])]])]))
        (fun _ => 0) : Env Unit)
      456 "org/repo" 300 100 10
      = some (.timeoutErr (timeout_message "org/repo" 300), 3, 3) := rfl

theorem findFirst_some (p : PyVal → Except Unit Bool) (l : List PyVal) (v : PyVal)
    (h : findFirst p l = .ok (some v)) : p v = .ok true ∧ v ∈ l := by
  induction l with
  | nil => simp [findFirst] at h
  | cons a t ih =>
    rw [findFirst] at h
    cases hp : p a with
    | error e => rw [hp] at h; exact Except.noConfusion h
    | ok b =>
      cases b with
      | false =>
        rw [hp] at h
        obtain ⟨h1, h2⟩ := ih h
        exact ⟨h1, List.mem_cons_of_mem _ h2⟩
      | true =>
        rw [hp] at h
        obtain rfl : a = v := by injection h with h; injection h
        exact ⟨hp, List.mem_cons_self _ _⟩


theorem findFirst_eq_of_unique (p : PyVal → Except Unit Bool) (l : List PyVal) (a : PyVal)
    (ha : a ∈ l) (hpa : p a = .ok true)
    (hu : ∀ v ∈ l, p v = .ok false ∨ v = a) : findFirst p l = .ok (some a) := by
  induction l with
  | nil => cases ha
  | cons b t ih =>
    rcases hu b (List.mem_cons_self b t) with hb | rfl
    · have hba : b ≠ a := by
        intro e; rw [e, hpa] at hb
        have : (true : Bool) = false := by injection hb
        exact Bool.noConfusion this
      have ha' : a ∈ t := by
        rcases List.mem_cons.mp ha with rfl | h
        · exact absurd rfl hba
        · exact h
      rw [findFirst, hb]
      exact ih ha' (fun v hv => hu v (List.mem_cons_of_mem _ hv))
    · rw [findFirst, hpa]

theorem findFirst_append (p : PyVal → Except Unit Bool) (pre : List PyVal) (a : PyVal)
    (post : List PyVal) (hpre : ∀ v ∈ pre, p v = .ok false) (hpa : p a = .ok true) :
    findFirst p (pre ++ a :: post) = .ok (some a) := by
  induction pre with
  | nil => rw [List.nil_append, findFirst, hpa]
  | cons b t ih =>
    rw [List.cons_append, findFirst, hpre b (List.mem_cons_self b t)]
    exact ih (fun v hv => hpre v (List.mem_cons_of_mem _ hv))

theorem lookup_ne_nil {α β : Type} [BEq α] (k : α) (l : List (α × β)) (v : β)
    (h : List.lookup k l = some v) : l ≠ [] := by
  intro e; rw [e] at h; exact Option.noConfusion h

theorem optEqInt_lookup (o : Option PyVal) (n : Int) (h : optEqInt o n = true) :
    o = some (.int n) := by
  match o with
  | none => exact absurd h (by simp [optEqInt])
  | some (.int m) =>
    have : m = n := by simpa [optEqInt] using h
    rw [this]
  | some (.str s) => exact absurd h (by simp [optEqInt])
  | some (.list l) => exact absurd h (by simp [optEqInt])
  | some (.dict d) => exact absurd h (by simp [optEqInt])

theorem optEqStr_lookup (o : Option PyVal) (s : String) (h : optEqStr o s = true) :
    o = some (.str s) := by
  match o with
  | none => exact absurd h (by simp [optEqStr])
  | some (.int m) => exact absurd h (by simp [optEqStr])
  | some (.str t) =>
    have : t = s := by simpa [optEqStr] using h
    rw [this]
  | some (.list l) => exact absurd h (by simp [optEqStr])
  | some (.dict d) => exact absurd h (by simp [optEqStr])

theorem pyTruthy_of_lookup (d : List (String × PyVal)) (k : String) (v : PyVal)
    (h : List.lookup k d = some v) : pyTruthy (.dict d) = true := by
  cases d with
  | nil => exact absurd h (by simp [List.lookup])
  | cons b t => simp [pyTruthy]

theorem configPred_true (d : List (String × PyVal)) (iid : Int)
    (h : configPred iid (.dict d) = .ok true) :
    List.lookup "integrationId" d = some (.int iid) := by
  apply optEqInt_lookup
  injection h

theorem itemPred_true (m : List (String × PyVal)) (name : String)
    (h : itemPred name (.dict m) = .ok true) :
    List.lookup "name" m = some (.str name) := by
  apply optEqStr_lookup
  injection h

theorem poll_cycle_of_found (ε : Type) (response : PyVal) (iid : Int) (name : String)
    (cl : List PyVal) (d : List (String × PyVal)) (items : List PyVal)
    (m : List (String × PyVal))
    (hconf : getConfigList response = some cl)
    (hfc : findFirst (configPred iid) cl = .ok (some (.dict d)))
    (hit : itemsOf d = some items)
    (hfi : findFirst (itemPred name) items = .ok (some (.dict m))) :
    poll_cycle ε response iid name =
      match m.lookup "status" with
      | none => .done (.keyError "status")
      | some st => if pyEqStr st "PAUSED" then .done (.success (.dict m)) else .notYet := by
  obtain ⟨hpc, -⟩ := findFirst_some _ _ _ hfc
  obtain ⟨hpi, -⟩ := findFirst_some _ _ _ hfi
  have htd : pyTruthy (.dict d) = true := pyTruthy_of_lookup d _ _ (configPred_true d iid hpc)
  have htm : pyTruthy (.dict m) = true := pyTruthy_of_lookup m _ _ (itemPred_true m name hpi)
  have g1 : pyNotOpt (some (PyVal.dict d)) = false := by simp [pyNotOpt, htd]
  have g2 : optItemsIsList (some (PyVal.dict d)) = true := by simp [optItemsIsList, hit]
  have g3 : pyNotOpt (some (PyVal.dict m)) = false := by simp [pyNotOpt, htm]
  simp only [poll_cycle, hconf, hfc, hit, hfi, g1, g2, g3, Bool.not_true, Bool.or_false,
    Bool.false_or, if_false, Bool.false_eq_true, ite_false]

theorem poll_cycle_success (ε : Type) (response : PyVal) (iid : Int) (name : String)
    (cl : List PyVal) (d : List (String × PyVal)) (items : List PyVal)
    (m : List (String × PyVal))
    (hconf : getConfigList response = some cl)
    (hfc : findFirst (configPred iid) cl = .ok (some (.dict d)))
    (hit : itemsOf d = some items)
    (hfi : findFirst (itemPred name) items = .ok (some (.dict m)))
    (hst : List.lookup "status" m = some (.str "PAUSED")) :
    poll_cycle ε response iid name = .done (.success (.dict m)) := by
  rw [poll_cycle_of_found ε response iid name cl d items m hconf hfc hit hfi, hst]
  simp [pyEqStr]

theorem poll_cycle_notYet (ε : Type) (response : PyVal) (iid : Int) (name : String)
    (cl : List PyVal) (d : List (String × PyVal)) (items : List PyVal)
    (m : List (String × PyVal)) (st : PyVal)
    (hconf : getConfigList response = some cl)
    (hfc : findFirst (configPred iid) cl = .ok (some (.dict d)))
    (hit : itemsOf d = some items)
    (hfi : findFirst (itemPred name) items = .ok (some (.dict m)))
    (hst : List.lookup "status" m = some st)
    (hne : pyEqStr st "PAUSED" = false) :
    poll_cycle ε response iid name = .notYet := by
  rw [poll_cycle_of_found ε response iid name cl d items m hconf hfc hit hfi, hst]
  simp [hne]

theorem poll_cycle_keyErr (ε : Type) (response : PyVal) (iid : Int) (name : String)
    (cl : List PyVal) (d : List (String × PyVal)) (items : List PyVal)
    (m : List (String × PyVal))
    (hconf : getConfigList response = some cl)
    (hfc : findFirst (configPred iid) cl = .ok (some (.dict d)))
    (hit : itemsOf d = some items)
    (hfi : findFirst (itemPred name) items = .ok (some (.dict m)))
    (hst : List.lookup "status" m = none) :
    poll_cycle ε response iid name = .done (.keyError "status") := by
  rw [poll_cycle_of_found ε response iid name cl d items m hconf hfc hit hfi, hst]

theorem poll_cycle_invalid (ε : Type) (response : PyVal) (iid : Int) (name : String)
    (cl : List PyVal)
    (hconf : getConfigList response = some cl)
    (hcase : findFirst (configPred iid) cl = .ok none
      ∨ ∃ d, findFirst (configPred iid) cl = .ok (some (.dict d)) ∧ itemsOf d = none) :
    poll_cycle ε response iid name = .done (.valueError invalid_config_msg) := by
  rcases hcase with hfc | ⟨d, hfc, hit⟩
  · simp only [poll_cycle, hconf, hfc]
    simp [pyNotOpt]
  · have g2 : optItemsIsList (some (PyVal.dict d)) = false := by
      simp [optItemsIsList, hit]
    simp only [poll_cycle, hconf, hfc, g2]
    simp

theorem poll_cycle_notfound (ε : Type) (response : PyVal) (iid : Int) (name : String)
    (cl : List PyVal) (d : List (String × PyVal)) (items : List PyVal)
    (hconf : getConfigList response = some cl)
    (hfc : findFirst (configPred iid) cl = .ok (some (.dict d)))
    (hit : itemsOf d = some items)
    (hfi : findFirst (itemPred name) items = .ok none) :
    poll_cycle ε response iid name = .done (.valueError (not_found_msg name)) := by
  obtain ⟨hpc, -⟩ := findFirst_some _ _ _ hfc
  have htd : pyTruthy (.dict d) = true := pyTruthy_of_lookup d _ _ (configPred_true d iid hpc)
  have g1 : pyNotOpt (some (PyVal.dict d)) = false := by simp [pyNotOpt, htd]
  have g2 : optItemsIsList (some (PyVal.dict d)) = true := by simp [optItemsIsList, hit]
  simp only [poll_cycle, hconf, hfc, hit, hfi, g1, g2, Bool.not_true, Bool.or_false,
    Bool.false_eq_true, ite_false]
  simp [pyNotOpt]

/-- What one loop iteration observes of the collaborator at cycle `k`:
either the transport error, or the result of evaluating the loop body on
the fetched snapshot. -/
def cycleObs (ε : Type) (env : Env ε) (integration_id : Int) (repository_name : String)
    (k : Nat) : Except ε (CycleResult ε) :=
  match env.fetch k with
  | .error e => .error e
  | .ok s => .ok (poll_cycle ε s integration_id repository_name)

theorem wait_from_congr {ε : Type} (env env' : Env ε) (iid : Int) (name : String)
    (t : Int) (i : Nat)
    (hobs : ∀ k, cycleObs ε env iid name k = cycleObs ε env' iid name k)
    (hlat : ∀ k, env.fetchLat k = env'.fetchLat k) :
    ∀ fuel k e, wait_from env iid name t i fuel k e = wait_from env' iid name t i fuel k e := by
  intro fuel
  induction fuel with
  | zero => intro k e; rfl
  | succ fuel ih =>
    intro k e
    rw [wait_from, wait_from]
    by_cases hd : (e : Int) < t
    · rw [if_pos hd, if_pos hd]
      have h := hobs k
      unfold cycleObs at h
      cases hf : env.fetch k with
      | error er =>
        cases hf' : env'.fetch k with
        | error er' =>
          simp only [hf, hf'] at h ⊢
          obtain rfl : er = er' := by injection h
          rfl
        | ok s' => simp only [hf, hf'] at h; exact Except.noConfusion h
      | ok s =>
        cases hf' : env'.fetch k with
        | error er' => simp only [hf, hf'] at h; exact Except.noConfusion h
        | ok s' =>
          simp only [hf, hf'] at h ⊢
          obtain hpc : poll_cycle ε s iid name = poll_cycle ε s' iid name := by injection h
          rw [hpc]
          cases poll_cycle ε s' iid name with
          | done o => rfl
          | notYet => rw [hlat k, ih]
    · rw [if_neg hd, if_neg hd]

theorem poll_cycle_ne_timeoutErr (ε : Type) (response : PyVal) (iid : Int)
    (name : String) (msg : String) :
    poll_cycle ε response iid name ≠ .done (.timeoutErr msg) := by
  intro h
  unfold poll_cycle at h
  repeat' split at h
  all_goals simp_all

theorem wait_from_timeout_msg {ε : Type} (env : Env ε) (iid : Int) (name : String)
    (t : Int) (i : Nat) :
    ∀ fuel k e msg f s,
      wait_from env iid name t i fuel k e = some (.timeoutErr msg, f, s) →
      msg = timeout_message name t := by
  intro fuel
  induction fuel with
  | zero => intro k e msg f s h; exact Option.noConfusion h
  | succ fuel ih =>
    intro k e msg f s h
    rw [wait_from] at h
    by_cases hd : (e : Int) < t
    · rw [if_pos hd] at h
      cases hf : env.fetch k with
      | error er => simp only [hf] at h; simp at h
      | ok resp =>
        simp only [hf] at h
        cases hc : poll_cycle ε resp iid name with
        | done o =>
          simp only [hc] at h
          simp only [Option.some.injEq, Prod.mk.injEq] at h
          obtain ⟨rfl, -, -⟩ := h
          exact absurd hc (poll_cycle_ne_timeoutErr ε resp iid name msg)
        | notYet =>
          simp only [hc] at h
          cases hw : wait_from env iid name t i fuel (k + 1) (e + env.fetchLat k + i) with
          | none => simp only [hw] at h; exact Option.noConfusion h
          | some x =>
            obtain ⟨o, f', s'⟩ := x
            simp only [hw, Option.some.injEq, Prod.mk.injEq] at h
            obtain ⟨rfl, -, -⟩ := h
            exact ih _ _ msg f' s' hw
    · rw [if_neg hd] at h
      simp only [Option.some.injEq, Prod.mk.injEq, Outcome.timeoutErr.injEq] at h
      obtain ⟨hm, -, -⟩ := h
      exact hm.symm

theorem wait_from_step_deadline {ε : Type} (env : Env ε) (iid : Int) (name : String)
    (t : Int) (i : Nat) (fuel k e : Nat) (hd : ¬ ((e : Nat) : Int) < t) :
    wait_from env iid name t i (fuel + 1) k e
      = some (.timeoutErr (timeout_message name t), 0, 0) := by
  rw [wait_from, if_neg hd]

theorem wait_from_step_transport {ε : Type} (env : Env ε) (iid : Int) (name : String)
    (t : Int) (i : Nat) (fuel k e : Nat) (er : ε)
    (hd : ((e : Nat) : Int) < t) (hf : env.fetch k = .error er) :
    wait_from env iid name t i (fuel + 1) k e = some (.transport er, 1, 0) := by
  rw [wait_from, if_pos hd]
  simp only [hf]

theorem wait_from_step_done {ε : Type} (env : Env ε) (iid : Int) (name : String)
    (t : Int) (i : Nat) (fuel k e : Nat) (snap : PyVal) (o : Outcome ε)
    (hd : ((e : Nat) : Int) < t) (hf : env.fetch k = .ok snap)
    (hc : poll_cycle ε snap iid name = .done o) :
    wait_from env iid name t i (fuel + 1) k e = some (o, 1, 0) := by
  rw [wait_from, if_pos hd]
  simp only [hf, hc]

theorem wait_from_step_notYet {ε : Type} (env : Env ε) (iid : Int) (name : String)
    (t : Int) (i : Nat) (fuel k e : Nat) (snap : PyVal)
    (hd : ((e : Nat) : Int) < t) (hf : env.fetch k = .ok snap)
    (hc : poll_cycle ε snap iid name = .notYet) :
    wait_from env iid name t i (fuel + 1) k e
      = Option.map (fun x => (x.1, x.2.1 + 1, x.2.2 + 1))
          (wait_from env iid name t i fuel (k + 1) (e + env.fetchLat k + i)) := by
  rw [wait_from, if_pos hd]
  simp only [hf, hc]
  cases wait_from env iid name t i fuel (k + 1) (e + env.fetchLat k + i) with
  | none => rfl
  | some x => obtain ⟨o, f, s⟩ := x; rfl

theorem wait_from_skip {ε : Type} (env : Env ε) (iid : Int) (name : String)
    (t : Int) (i : Nat) :
    ∀ (d j fuel : Nat),
      (∀ n, n < d → ((elapsed_at env i (j + n) : Nat) : Int) < t) →
      (∀ n, n < d → ∃ snap, env.fetch (j + n) = .ok snap ∧
        poll_cycle ε snap iid name = .notYet) →
      wait_from env iid name t i (d + fuel) j (elapsed_at env i j)
        = Option.map (fun x => (x.1, x.2.1 + d, x.2.2 + d))
            (wait_from env iid name t i fuel (j + d) (elapsed_at env i (j + d))) := by
  intro d
  induction d with
  | zero =>
    intro j fuel _ _
    rw [Nat.zero_add, Nat.add_zero]
    cases wait_from env iid name t i fuel j (elapsed_at env i j) with
    | none => rfl
    | some x => obtain ⟨o, f, s⟩ := x; simp
  | succ d ih =>
    intro j fuel htime hcyc
    obtain ⟨snap, hf, hc⟩ := hcyc 0 (Nat.succ_pos d)
    rw [Nat.add_zero] at hf
    have hd0 : ((elapsed_at env i j : Nat) : Int) < t := by
      have := htime 0 (Nat.succ_pos d); rwa [Nat.add_zero] at this
    have hstep : d + 1 + fuel = (d + fuel) + 1 := by omega
    rw [hstep, wait_from_step_notYet env iid name t i (d + fuel) j _ snap hd0 hf hc]
    have he : elapsed_at env i j + env.fetchLat j + i = elapsed_at env i (j + 1) := rfl
    rw [he]
    rw [ih (j + 1) fuel
      (fun n hn => by
        have h2 := htime (n + 1) (by omega)
        rwa [show j + (n + 1) = j + 1 + n by omega] at h2)
      (fun n hn => by
        have h2 := hcyc (n + 1) (by omega)
        rwa [show j + (n + 1) = j + 1 + n by omega] at h2)]
    rw [show j + 1 + d = j + (d + 1) by omega]
    cases wait_from env iid name t i fuel (j + (d + 1)) (elapsed_at env i (j + (d + 1))) with
    | none => rfl
    | some x =>
      obtain ⟨o, f, s⟩ := x
      simp only [Option.map, Option.some.injEq, Prod.mk.injEq]
      exact ⟨trivial, by omega, by omega⟩

theorem lt_ceil_cycles_iff (t : Int) (i k : Nat) (hi : 0 < i) (ht : 0 < t) :
    k < ceil_cycles t i ↔ k * i < t.toNat := by
  unfold ceil_cycles
  rw [Nat.lt_iff_add_one_le, Nat.le_div_iff_mul_le hi, Nat.add_mul, Nat.one_mul]
  have htn : 0 < t.toNat := by omega
  generalize k * i = a
  omega

theorem ceil_cycles_bounds (t : Int) (i : Nat) (ht : 0 < t) (hi : 0 < i) :
    t.toNat / i ≤ ceil_cycles t i ∧ ceil_cycles t i ≤ t.toNat / i + 1 := by
  unfold ceil_cycles
  constructor
  · exact Nat.div_le_div_right (by omega)
  · rw [show t.toNat + i - 1 = (t.toNat - 1) + i by omega, Nat.add_div_right _ hi]
    exact Nat.add_le_add_right (Nat.div_le_div_right (by omega)) 1

theorem wait_from_never {ε : Type} (env : Env ε) (iid : Int) (name : String)
    (t : Int) (i : Nat) (hi : 0 < i) (ht : 0 < t)
    (hlat : ∀ k, env.fetchLat k = 0)
    (hcyc : ∀ k, ∃ snap, env.fetch k = .ok snap ∧ poll_cycle ε snap iid name = .notYet) :
    ∀ fuel k, k ≤ ceil_cycles t i → ceil_cycles t i < k + fuel →
      wait_from env iid name t i fuel k (k * i)
        = some (.timeoutErr (timeout_message name t),
            ceil_cycles t i - k, ceil_cycles t i - k) := by
  intro fuel
  induction fuel with
  | zero => intro k hk hfk; omega
  | succ fuel ih =>
    intro k hk hfk
    by_cases hkF : k < ceil_cycles t i
    · have hki : k * i < t.toNat := (lt_ceil_cycles_iff t i k hi ht).mp hkF
      have hd : ((k * i : Nat) : Int) < t := by omega
      obtain ⟨snap, hf, hc⟩ := hcyc k
      rw [wait_from_step_notYet env iid name t i fuel k _ snap hd hf hc, hlat k]
      rw [show k * i + 0 + i = (k + 1) * i by rw [Nat.add_zero, Nat.add_mul, Nat.one_mul]]
      rw [ih (k + 1) (by omega) (by omega)]
      simp only [Option.map, Option.some.injEq, Prod.mk.injEq]
      exact ⟨trivial, by omega, by omega⟩
    · have hki : ¬ k * i < t.toNat := fun hlt => hkF ((lt_ceil_cycles_iff t i k hi ht).mpr hlt)
      have hd : ¬ ((k * i : Nat) : Int) < t := by omega
      rw [wait_from_step_deadline env iid name t i fuel k _ hd]
      have : ceil_cycles t i - k = 0 := by omega
      rw [this]

/-- C10: for every `timeout_ms ≤ 0` (with any interval), the wait performs
zero fetch calls and zero sleeps and fails immediately with `TimeoutError`,
because the deadline check precedes the first fetch. -/
theorem C10_timeout_before_first_fetch {ε : Type} (env : Env ε) (integration_id : Int)
    (repository_name : String) (timeout_ms : Int) (interval_ms fuel : Nat)
    (ht : timeout_ms ≤ 0) (hfuel : 0 < fuel) :
    wait_for_repo_status_paused env integration_id repository_name timeout_ms interval_ms fuel
      = some (.timeoutErr (timeout_message repository_name timeout_ms), 0, 0) := by
  obtain ⟨f, rfl⟩ : ∃ f, fuel = f + 1 := ⟨fuel - 1, by omega⟩
  unfold wait_for_repo_status_paused
  exact wait_from_step_deadline env integration_id repository_name timeout_ms interval_ms
    f 0 0 (by omega)

/-- C10 witness: with `timeout_ms = -5` the model makes no fetch and no
sleep and fails with the `TimeoutError`. -/
theorem C10_witness :
    wait_for_repo_status_paused
      (Env.mk (fun _ => .ok (.dict [])) (fun _ => 0) : Env Unit)
      456 "org/repo" (-5) 1000 3
      = some (.timeoutErr (timeout_message "org/repo" (-5)), 0, 0) :=
  C10_timeout_before_first_fetch
    (Env.mk (fun _ => .ok (.dict [])) (fun _ => 0)) 456 "org/repo" (-5) 1000 3
    (by decide) (by decide)

/-- C2: whenever the first fetched snapshot has no `IntegrationConfig`
matching the requested id, or its `items` field is missing or not a list,
or no item in `items` is named `repository_name`, the wait raises the
`ValueError` on the first cycle — exactly one fetch, zero sleeps — for
every positive `timeout_ms`, however large; it is never converted into a
`TimeoutError`. -/
theorem C2_structural_error_first_cycle {ε : Type} (env : Env ε) (integration_id : Int)
    (repository_name : String) (timeout_ms : Int) (interval_ms fuel : Nat)
    (response : PyVal) (cl : List PyVal)
    (hfetch : env.fetch 0 = .ok response)
    (hconf : getConfigList response = some cl)
    (hcase : findFirst (configPred integration_id) cl = .ok none
      ∨ (∃ d, findFirst (configPred integration_id) cl = .ok (some (.dict d))
          ∧ itemsOf d = none)
      ∨ (∃ d items, findFirst (configPred integration_id) cl = .ok (some (.dict d))
          ∧ itemsOf d = some items
          ∧ findFirst (itemPred repository_name) items = .ok none))
    (ht : 0 < timeout_ms) (hfuel : 0 < fuel) :
    ∃ msg, wait_for_repo_status_paused env integration_id repository_name
        timeout_ms interval_ms fuel = some (.valueError msg, 1, 0) := by
  obtain ⟨f, rfl⟩ : ∃ f, fuel = f + 1 := ⟨fuel - 1, by omega⟩
  unfold wait_for_repo_status_paused
  have hd : ((0 : Nat) : Int) < timeout_ms := by omega
  rcases hcase with h1 | ⟨d, hfc, hit⟩ | ⟨d, items, hfc, hit, hfi⟩
  · exact ⟨invalid_config_msg,
      wait_from_step_done env integration_id repository_name timeout_ms interval_ms
        f 0 0 response _ hd hfetch
        (poll_cycle_invalid ε response integration_id repository_name cl hconf (Or.inl h1))⟩
  · exact ⟨invalid_config_msg,
      wait_from_step_done env integration_id repository_name timeout_ms interval_ms
        f 0 0 response _ hd hfetch
        (poll_cycle_invalid ε response integration_id repository_name cl hconf
          (Or.inr ⟨d, hfc, hit⟩))⟩
  · exact ⟨not_found_msg repository_name,
      wait_from_step_done env integration_id repository_name timeout_ms interval_ms
        f 0 0 response _ hd hfetch
        (poll_cycle_notfound ε response integration_id repository_name cl d items
          hconf hfc hit hfi)⟩

/-- C2 witness: the items list names only `other/repo` (the spec's
Scenario B shape), `timeout_ms` is huge, and the wait still fails on the
first cycle with one fetch and zero sleeps. -/
theorem C2_witness :
    ∃ msg, wait_for_repo_status_paused
      (Env.mk (fun _ => .ok (.dict [("configuration", .list [.dict
        [("integrationId", .int 456),
         ("items", .list [.dict [("name", .str "other/repo"), ("status", .str "PAUSED")]])]])]))
        (fun _ => 0) : Env Unit)
      456 "org/repo" 1000000000 1000 3
      = some (.valueError msg, 1, 0) :=
  C2_structural_error_first_cycle
    (Env.mk (fun _ => .ok (.dict [("configuration", .list [.dict
      [("integrationId", .int 456),
       ("items", .list [.dict [("name", .str "other/repo"), ("status", .str "PAUSED")]])]])]))
      (fun _ => 0))
    456 "org/repo" 1000000000 1000 3 _ _ rfl rfl
    (Or.inr (Or.inr ⟨[("integrationId", .int 456),
      ("items", .list [.dict [("name", .str "other/repo"), ("status", .str "PAUSED")]])],
      [.dict [("name", .str "other/repo"), ("status", .str "PAUSED")]], rfl, rfl, rfl⟩))
    (by decide) (by decide)

/-- C9: when the first name-matched item has no `status` field, the wait
raises `KeyError` on the unguarded `matching_item["status"]` access — not
any of the spec's three typed failures — after exactly one fetch and zero
sleeps. -/
theorem C9_missing_status_keyerror {ε : Type} (env : Env ε) (integration_id : Int)
    (repository_name : String) (timeout_ms : Int) (interval_ms fuel : Nat)
    (response : PyVal) (cl : List PyVal) (d m : List (String × PyVal)) (items : List PyVal)
    (hfetch : env.fetch 0 = .ok response)
    (hconf : getConfigList response = some cl)
    (hfc : findFirst (configPred integration_id) cl = .ok (some (.dict d)))
    (hit : itemsOf d = some items)
    (hfi : findFirst (itemPred repository_name) items = .ok (some (.dict m)))
    (hst : List.lookup "status" m = none)
    (ht : 0 < timeout_ms) (hfuel : 0 < fuel) :
    wait_for_repo_status_paused env integration_id repository_name timeout_ms interval_ms fuel
      = some (.keyError "status", 1, 0) := by
  obtain ⟨f, rfl⟩ : ∃ f, fuel = f + 1 := ⟨fuel - 1, by omega⟩
  unfold wait_for_repo_status_paused
  exact wait_from_step_done env integration_id repository_name timeout_ms interval_ms
    f 0 0 response _ (by omega) hfetch
    (poll_cycle_keyErr ε response integration_id repository_name cl d items m
      hconf hfc hit hfi hst)

/-- C9 witness: an item named `org/repo` without a `status` key makes the
wait end in `KeyError` after one fetch. -/
theorem C9_witness :
    wait_for_repo_status_paused
      (Env.mk (fun _ => .ok (.dict [("configuration", .list [.dict
        [("integrationId", .int 456),
         ("items", .list [.dict [("name", .str "org/repo")]])]])]))
        (fun _ => 0) : Env Unit)
      456 "org/repo" 15000 1000 3
      = some (.keyError "status", 1, 0) :=
  C9_missing_status_keyerror
    (Env.mk (fun _ => .ok (.dict [("configuration", .list [.dict
      [("integrationId", .int 456),
       ("items", .list [.dict [("name", .str "org/repo")]])]])]))
      (fun _ => 0))
    456 "org/repo" 15000 1000 3 _ _
    [("integrationId", .int 456), ("items", .list [.dict [("name", .str "org/repo")]])]
    [("name", .str "org/repo")] _
    rfl rfl rfl rfl rfl rfl (by decide) (by decide)

/-- C4: for every `interval_ms > 0` and `timeout_ms > 0` with
`interval_ms ≥ timeout_ms`, a well-formed first snapshot whose matched
item's status differs from `PAUSED` leads to exactly one fetch (not zero,
not more) before the deadline check fails the wait with `TimeoutError`. -/
theorem C4_one_fetch_when_interval_ge_timeout {ε : Type} (env : Env ε) (integration_id : Int)
    (repository_name : String) (timeout_ms : Int) (interval_ms fuel : Nat)
    (response : PyVal) (cl : List PyVal) (d m : List (String × PyVal))
    (items : List PyVal) (st : PyVal)
    (ht : 0 < timeout_ms) (_hi : 0 < interval_ms) (hti : timeout_ms ≤ (interval_ms : Int))
    (hfetch : env.fetch 0 = .ok response)
    (hconf : getConfigList response = some cl)
    (hfc : findFirst (configPred integration_id) cl = .ok (some (.dict d)))
    (hit : itemsOf d = some items)
    (hfi : findFirst (itemPred repository_name) items = .ok (some (.dict m)))
    (hst : List.lookup "status" m = some st)
    (hne : pyEqStr st "PAUSED" = false)
    (hfuel : 2 ≤ fuel) :
    wait_for_repo_status_paused env integration_id repository_name timeout_ms interval_ms fuel
      = some (.timeoutErr (timeout_message repository_name timeout_ms), 1, 1) := by
  obtain ⟨f, rfl⟩ : ∃ f, fuel = (f + 1) + 1 := ⟨fuel - 2, by omega⟩
  unfold wait_for_repo_status_paused
  have hc := poll_cycle_notYet ε response integration_id repository_name cl d items m st
    hconf hfc hit hfi hst hne
  rw [wait_from_step_notYet env integration_id repository_name timeout_ms interval_ms
    (f + 1) 0 0 response (by omega) hfetch hc]
  rw [wait_from_step_deadline env integration_id repository_name timeout_ms interval_ms
    f 1 (0 + env.fetchLat 0 + interval_ms) (by push_cast; omega)]
  rfl

/-- C4 witness: `timeout_ms = 500 ≤ interval_ms = 1000` and a first
snapshot in status `DISCOVERED`: one fetch, then `TimeoutError`. -/
theorem C4_witness :
    wait_for_repo_status_paused
      (Env.mk (fun _ => .ok (.dict [("configuration", .list [.dict
        [("integrationId", .int 456),
         ("items", .list [.dict [("name", .str "org/repo"), ("status", .str "DISCOVERED")]])]])]))
        (fun _ => 0) : Env Unit)
      456 "org/repo" 500 1000 5
      = some (.timeoutErr (timeout_message "org/repo" 500), 1, 1) :=
  C4_one_fetch_when_interval_ge_timeout
    (Env.mk (fun _ => .ok (.dict [("configuration", .list [.dict
      [("integrationId", .int 456),
       ("items", .list [.dict [("name", .str "org/repo"), ("status", .str "DISCOVERED")]])]])]))
      (fun _ => 0))
    456 "org/repo" 500 1000 5 _ _
    [("integrationId", .int 456),
     ("items", .list [.dict [("name", .str "org/repo"), ("status", .str "DISCOVERED")]])]
    [("name", .str "org/repo"), ("status", .str "DISCOVERED")]
    [.dict [("name", .str "org/repo"), ("status", .str "DISCOVERED")]] (.str "DISCOVERED")
    (by decide) (by decide) (by decide)
    rfl rfl rfl rfl rfl rfl rfl (by decide)

/-- C1: on any poll cycle `k` reached by the loop (all earlier cycles saw a
well-formed snapshot whose matched item was not yet `PAUSED`, and the
deadline had not passed), if cycle `k`'s snapshot's matching config
contains the item named `repository_name` (unique name match) with status
`PAUSED`, the wait returns that item on that cycle with no sleep after
that fetch: `k + 1` fetches and `k` sleeps; for `k = 0`, exactly one fetch
and zero sleeps. -/
theorem C1_returns_immediately_on_match {ε : Type} (env : Env ε) (integration_id : Int)
    (repository_name : String) (timeout_ms : Int) (interval_ms fuel k : Nat)
    (response : PyVal) (cl : List PyVal) (d m : List (String × PyVal)) (items : List PyVal)
    (hpre : ∀ j, j < k → ∃ snap, env.fetch j = .ok snap ∧
      poll_cycle ε snap integration_id repository_name = .notYet)
    (htime : ∀ j, j ≤ k → ((elapsed_at env interval_ms j : Nat) : Int) < timeout_ms)
    (hfetch : env.fetch k = .ok response)
    (hconf : getConfigList response = some cl)
    (hfc : findFirst (configPred integration_id) cl = .ok (some (.dict d)))
    (hit : itemsOf d = some items)
    (hmem : PyVal.dict m ∈ items)
    (hname : itemPred repository_name (.dict m) = .ok true)
    (huniq : ∀ v ∈ items, itemPred repository_name v = .ok false ∨ v = PyVal.dict m)
    (hst : List.lookup "status" m = some (.str "PAUSED"))
    (hfuel : k < fuel) :
    wait_for_repo_status_paused env integration_id repository_name timeout_ms interval_ms fuel
      = some (.success (.dict m), k + 1, k) := by
  have hfi : findFirst (itemPred repository_name) items = .ok (some (.dict m)) :=
    findFirst_eq_of_unique _ items _ hmem hname huniq
  have hc : poll_cycle ε response integration_id repository_name = .done (.success (.dict m)) :=
    poll_cycle_success ε response integration_id repository_name cl d items m
      hconf hfc hit hfi hst
  obtain ⟨f, rfl⟩ : ∃ f, fuel = k + (f + 1) := ⟨fuel - k - 1, by omega⟩
  show wait_from env integration_id repository_name timeout_ms interval_ms
    (k + (f + 1)) 0 (elapsed_at env interval_ms 0) = _
  rw [wait_from_skip env integration_id repository_name timeout_ms interval_ms k 0 (f + 1)
    (fun n hn => by rw [Nat.zero_add]; exact htime n (by omega))
    (fun n hn => by rw [Nat.zero_add]; exact hpre n hn)]
  rw [Nat.zero_add]
  rw [wait_from_step_done env integration_id repository_name timeout_ms interval_ms
    f k (elapsed_at env interval_ms k) response _ (htime k le_rfl) hfetch hc]
  simp only [Option.map, Option.some.injEq, Prod.mk.injEq]
  exact ⟨trivial, by omega, by omega⟩

/-- C1 witness: the condition holds on the first fetch, so exactly one
fetch and zero sleeps occur. -/
theorem C1_witness :
    wait_for_repo_status_paused
      (Env.mk (fun _ => .ok (.dict [("configuration", .list [.dict
        [("integrationId", .int 456),
         ("items", .list [.dict [("name", .str "org/repo"), ("status", .str "PAUSED")]])]])]))
        (fun _ => 0) : Env Unit)
      456 "org/repo" 15000 1000 5
      = some (.success (.dict [("name", .str "org/repo"), ("status", .str "PAUSED")]), 1, 0) :=
  C1_returns_immediately_on_match
    (Env.mk (fun _ => .ok (.dict [("configuration", .list [.dict
      [("integrationId", .int 456),
       ("items", .list [.dict [("name", .str "org/repo"), ("status", .str "PAUSED")]])]])]))
      (fun _ => 0))
    456 "org/repo" 15000 1000 5 0 _ _
    [("integrationId", .int 456),
     ("items", .list [.dict [("name", .str "org/repo"), ("status", .str "PAUSED")]])]
    [("name", .str "org/repo"), ("status", .str "PAUSED")]
    [.dict [("name", .str "org/repo"), ("status", .str "PAUSED")]]
    (fun j hj => absurd hj (Nat.not_lt_zero j))
    (fun j hj => by
      have : j = 0 := by omega
      subst this; decide)
    rfl rfl rfl rfl
    (List.Mem.head _) rfl
    (fun v hv => Or.inr (List.mem_singleton.mp hv))
    rfl (by decide)

/-- C5: if a transport error occurs on the fetch of cycle `k` (all earlier
cycles were well-formed non-matches within the deadline), the wait ends at
once with that very error, unmodified — `k + 1` fetches and `k` sleeps in
total, so no further fetch or sleep after it. -/
theorem C5_transport_error_propagates {ε : Type} (env : Env ε) (integration_id : Int)
    (repository_name : String) (timeout_ms : Int) (interval_ms fuel k : Nat) (er : ε)
    (hpre : ∀ j, j < k → ∃ snap, env.fetch j = .ok snap ∧
      poll_cycle ε snap integration_id repository_name = .notYet)
    (htime : ∀ j, j ≤ k → ((elapsed_at env interval_ms j : Nat) : Int) < timeout_ms)
    (herr : env.fetch k = .error er)
    (hfuel : k < fuel) :
    wait_for_repo_status_paused env integration_id repository_name timeout_ms interval_ms fuel
      = some (.transport er, k + 1, k) := by
  obtain ⟨f, rfl⟩ : ∃ f, fuel = k + (f + 1) := ⟨fuel - k - 1, by omega⟩
  show wait_from env integration_id repository_name timeout_ms interval_ms
    (k + (f + 1)) 0 (elapsed_at env interval_ms 0) = _
  rw [wait_from_skip env integration_id repository_name timeout_ms interval_ms k 0 (f + 1)
    (fun n hn => by rw [Nat.zero_add]; exact htime n (by omega))
    (fun n hn => by rw [Nat.zero_add]; exact hpre n hn)]
  rw [Nat.zero_add]
  rw [wait_from_step_transport env integration_id repository_name timeout_ms interval_ms
    f k (elapsed_at env interval_ms k) er (htime k le_rfl) herr]
  simp only [Option.map, Option.some.injEq, Prod.mk.injEq]
  exact ⟨trivial, by omega, by omega⟩

/-- C5 witness: the second fetch (cycle 1) raises transport error `7`,
which surfaces unmodified after two fetches and one sleep. -/
theorem C5_witness :
    wait_for_repo_status_paused
      (Env.mk (fun n => if n = 0
        then .ok (.dict [("configuration", .list [.dict
          [("integrationId", .int 456),
           ("items", .list [.dict [("name", .str "org/repo"), ("status", .str "DISCOVERED")]])]])])
        else .error 7) (fun _ => 0) : Env Nat)
      456 "org/repo" 15000 1000 5
      = some (.transport 7, 2, 1) :=
  C5_transport_error_propagates
    (Env.mk (fun n => if n = 0
      then .ok (.dict [("configuration", .list [.dict
        [("integrationId", .int 456),
         ("items", .list [.dict [("name", .str "org/repo"), ("status", .str "DISCOVERED")]])]])])
      else .error 7) (fun _ => 0))
    456 "org/repo" 15000 1000 5 1 7
    (fun j hj => by
      have : j = 0 := by omega
      subst this
      exact ⟨.dict [("configuration", .list [.dict
        [("integrationId", .int 456),
         ("items", .list [.dict [("name", .str "org/repo"), ("status", .str "DISCOVERED")]])]])],
        rfl, rfl⟩)
    (fun j hj => by interval_cases j <;> decide)
    rfl (by decide)

/-- C3: if every cycle sees a well-formed snapshot whose matched item is
never `PAUSED`, and fetches are instantaneous, the wait fails with
`TimeoutError` once the elapsed time reaches `timeout_ms`, making exactly
`⌈timeout_ms / interval_ms⌉` fetch calls — within `±1` of
`timeout_ms / interval_ms`, hence bounded, not unbounded. -/
theorem C3_timeout_with_bounded_fetches {ε : Type} (env : Env ε) (integration_id : Int)
    (repository_name : String) (timeout_ms : Int) (interval_ms fuel : Nat)
    (ht : 0 < timeout_ms) (hi : 0 < interval_ms)
    (hlat : ∀ k, env.fetchLat k = 0)
    (hcyc : ∀ k, ∃ snap, env.fetch k = .ok snap ∧
      poll_cycle ε snap integration_id repository_name = .notYet)
    (hfuel : ceil_cycles timeout_ms interval_ms < fuel) :
    wait_for_repo_status_paused env integration_id repository_name timeout_ms interval_ms fuel
      = some (.timeoutErr (timeout_message repository_name timeout_ms),
          ceil_cycles timeout_ms interval_ms, ceil_cycles timeout_ms interval_ms)
    ∧ timeout_ms.toNat / interval_ms ≤ ceil_cycles timeout_ms interval_ms
    ∧ ceil_cycles timeout_ms interval_ms ≤ timeout_ms.toNat / interval_ms + 1 := by
  refine ⟨?_, (ceil_cycles_bounds timeout_ms interval_ms ht hi).1,
    (ceil_cycles_bounds timeout_ms interval_ms ht hi).2⟩
  unfold wait_for_repo_status_paused
  have h := wait_from_never env integration_id repository_name timeout_ms interval_ms
    hi ht hlat hcyc fuel 0 (by omega) (by omega)
  rw [Nat.zero_mul, Nat.sub_zero] at h
  exact h

/-- C3 witness: status stays `DISCOVERED`, `timeout_ms = 300`,
`interval_ms = 100` (the spec's Scenario C): `TimeoutError` after exactly
3 fetches, and `3 ≤ 300/100 + 1`. -/
theorem C3_witness :
    (wait_for_repo_status_paused
      (Env.mk (fun _ => .ok (.dict [("configuration", .list [.dict
        [("integrationId", .int 456),
         ("items", .list [.dict [("name", .str "org/repo"), ("status", .str "DISCOVERED")]])]])]))
        (fun _ => 0) : Env Unit)
      456 "org/repo" 300 100 10
      = some (.timeoutErr (timeout_message "org/repo" 300), 3, 3))
    ∧ (3 : Nat) ≤ 3 ∧ (3 : Nat) ≤ 3 + 1 :=
  C3_timeout_with_bounded_fetches
    (Env.mk (fun _ => .ok (.dict [("configuration", .list [.dict
      [("integrationId", .int 456),
       ("items", .list [.dict [("name", .str "org/repo"), ("status", .str "DISCOVERED")]])]])]))
      (fun _ => 0))
    456 "org/repo" 300 100 10 (by decide) (by decide) (fun _ => rfl)
    (fun k => ⟨.dict [("configuration", .list [.dict
      [("integrationId", .int 456),
       ("items", .list [.dict [("name", .str "org/repo"), ("status", .str "DISCOVERED")]])]])],
      rfl, rfl⟩)
    (by decide)

/-- C6: whenever the wait ends in `TimeoutError`, its message contains the
repository name, the target status `PAUSED`, and the allotted timeout —
rendered, as in the source's `timeout_ms // 1000`, in whole (floored)
seconds. -/
theorem C6_timeout_message_contents {ε : Type} (env : Env ε) (integration_id : Int)
    (repository_name : String) (timeout_ms : Int) (interval_ms fuel : Nat)
    (msg : String) (fc sc : Nat)
    (h : wait_for_repo_status_paused env integration_id repository_name
      timeout_ms interval_ms fuel = some (.timeoutErr msg, fc, sc)) :
    (∃ a b, msg = a ++ repository_name ++ b)
    ∧ (∃ a b, msg = a ++ "PAUSED" ++ b)
    ∧ (∃ a, msg = a ++ (toString (Int.fdiv timeout_ms 1000) ++ "s")) := by
  have hm : msg = timeout_message repository_name timeout_ms :=
    wait_from_timeout_msg env integration_id repository_name timeout_ms interval_ms
      fuel 0 0 msg fc sc h
  subst hm
  unfold timeout_message
  refine ⟨⟨"⏱️ Timeout: Repo '",
      "' status did not become 'PAUSED' within "
        ++ toString (Int.fdiv timeout_ms 1000) ++ "s", ?_⟩,
    ⟨"⏱️ Timeout: Repo '" ++ repository_name ++ "' status did not become '",
      "' within " ++ toString (Int.fdiv timeout_ms 1000) ++ "s", ?_⟩,
    ⟨"⏱️ Timeout: Repo '" ++ repository_name
      ++ "' status did not become 'PAUSED' within ", ?_⟩⟩
  · simp [String.append_assoc]
  · have hx : ∀ x : String,
        ((x ++ "' status did not become '") ++ "PAUSED") ++ "' within "
          = x ++ "' status did not become 'PAUSED' within " := by
      intro x
      rw [String.append_assoc, String.append_assoc]
      exact congrArg (fun y => x ++ y) rfl
    simp only [← String.append_assoc]
    rw [hx ("⏱️ Timeout: Repo '" ++ repository_name)]
  · simp [String.append_assoc]

/-- C6 witness: the Scenario C run times out and its message contains
`org/repo`, `PAUSED` and `0s` (300 ms floored to whole seconds). -/
theorem C6_witness :
    (∃ a b, timeout_message "org/repo" 300 = a ++ "org/repo" ++ b)
    ∧ (∃ a b, timeout_message "org/repo" 300 = a ++ "PAUSED" ++ b)
    ∧ (∃ a, timeout_message "org/repo" 300
        = a ++ (toString (Int.fdiv 300 1000) ++ "s")) :=
  C6_timeout_message_contents
    (Env.mk (fun _ => .ok (.dict [("configuration", .list [.dict
      [("integrationId", .int 456),
       ("items", .list [.dict [("name", .str "org/repo"), ("status", .str "DISCOVERED")]])]])]))
      (fun _ => 0) : Env Unit)
    456 "org/repo" 300 100 10 (timeout_message "org/repo" 300) 3 3 rfl

/-- C7: when the matched config's items are `pre ++ item ++ post` with no
name match in `pre` and `item` named `repository_name`, the wait evaluates
the first such item: its whole outcome is unchanged under any replacement
of the later items, and if that first item's status is `PAUSED` it is the
value returned (one fetch, no sleep). -/
theorem C7_first_name_match_wins {ε : Type} (env env' : Env ε) (integration_id : Int)
    (repository_name : String) (timeout_ms : Int) (interval_ms fuel : Nat)
    (response response' : PyVal) (cl cl' : List PyVal)
    (d d' m : List (String × PyVal)) (pre post post' : List PyVal)
    (hfetch : ∀ k, env.fetch k = .ok response)
    (hfetch' : ∀ k, env'.fetch k = .ok response')
    (hlat : ∀ k, env.fetchLat k = env'.fetchLat k)
    (hconf : getConfigList response = some cl)
    (hconf' : getConfigList response' = some cl')
    (hfc : findFirst (configPred integration_id) cl = .ok (some (.dict d)))
    (hfc' : findFirst (configPred integration_id) cl' = .ok (some (.dict d')))
    (hit : itemsOf d = some (pre ++ .dict m :: post))
    (hit' : itemsOf d' = some (pre ++ .dict m :: post'))
    (hpre : ∀ v ∈ pre, itemPred repository_name v = .ok false)
    (hname : itemPred repository_name (.dict m) = .ok true) :
    wait_for_repo_status_paused env integration_id repository_name timeout_ms interval_ms fuel
      = wait_for_repo_status_paused env' integration_id repository_name timeout_ms interval_ms fuel
    ∧ (List.lookup "status" m = some (.str "PAUSED") → 0 < timeout_ms → 0 < fuel →
        wait_for_repo_status_paused env integration_id repository_name
          timeout_ms interval_ms fuel = some (.success (.dict m), 1, 0)) := by
  have hfi : findFirst (itemPred repository_name) (pre ++ .dict m :: post)
      = .ok (some (.dict m)) := findFirst_append _ pre _ post hpre hname
  have hfi' : findFirst (itemPred repository_name) (pre ++ .dict m :: post')
      = .ok (some (.dict m)) := findFirst_append _ pre _ post' hpre hname
  have hpc : poll_cycle ε response integration_id repository_name
      = poll_cycle ε response' integration_id repository_name := by
    rw [poll_cycle_of_found ε response integration_id repository_name cl d _ m
        hconf hfc hit hfi,
      poll_cycle_of_found ε response' integration_id repository_name cl' d' _ m
        hconf' hfc' hit' hfi']
  constructor
  · unfold wait_for_repo_status_paused
    exact wait_from_congr env env' integration_id repository_name timeout_ms interval_ms
      (fun k => by unfold cycleObs; simp only [hfetch k, hfetch' k, hpc]) hlat fuel 0 0
  · intro hst ht hfuel
    obtain ⟨f, rfl⟩ : ∃ f, fuel = f + 1 := ⟨fuel - 1, by omega⟩
    unfold wait_for_repo_status_paused
    exact wait_from_step_done env integration_id repository_name timeout_ms interval_ms
      f 0 0 response _ (by omega) (hfetch 0)
      (poll_cycle_success ε response integration_id repository_name cl d _ m
        hconf hfc hit hfi hst)

/-- Snapshot with two items both named `org/repo`: the first `PAUSED`, a
second `ENABLED` duplicate after it. -/
def dup_snapshot : PyVal :=
  .dict [("configuration", .list [.dict
    [("integrationId", .int 456),
     ("items", .list [.dict [("name", .str "org/repo"), ("status", .str "PAUSED")],
       .dict [("name", .str "org/repo"), ("status", .str "ENABLED")]])]])]

/-- Snapshot identical to `dup_snapshot` but with the duplicate removed. -/
def nodup_snapshot : PyVal :=
  .dict [("configuration", .list [.dict
    [("integrationId", .int 456),
     ("items", .list [.dict [("name", .str "org/repo"), ("status", .str "PAUSED")]])]])]

/-- C7 witness: with a duplicate `org/repo` entry after the first, the
outcome equals the run without the duplicate, and the first entry (status
`PAUSED`) is returned after one fetch and zero sleeps. -/
theorem C7_witness :
    wait_for_repo_status_paused
        (Env.mk (fun _ => .ok dup_snapshot) (fun _ => 0) : Env Unit)
        456 "org/repo" 15000 1000 5
      = wait_for_repo_status_paused
        (Env.mk (fun _ => .ok nodup_snapshot) (fun _ => 0) : Env Unit)
        456 "org/repo" 15000 1000 5
    ∧ (List.lookup "status" [("name", PyVal.str "org/repo"), ("status", PyVal.str "PAUSED")]
          = some (PyVal.str "PAUSED") → (0 : Int) < 15000 → 0 < 5 →
        wait_for_repo_status_paused
            (Env.mk (fun _ => .ok dup_snapshot) (fun _ => 0) : Env Unit)
            456 "org/repo" 15000 1000 5
          = some (.success (.dict [("name", .str "org/repo"), ("status", .str "PAUSED")]),
              1, 0)) :=
  C7_first_name_match_wins
    (Env.mk (fun _ => .ok dup_snapshot) (fun _ => 0))
    (Env.mk (fun _ => .ok nodup_snapshot) (fun _ => 0))
    456 "org/repo" 15000 1000 5 dup_snapshot nodup_snapshot _ _
    [("integrationId", .int 456),
     ("items", .list [.dict [("name", .str "org/repo"), ("status", .str "PAUSED")],
       .dict [("name", .str "org/repo"), ("status", .str "ENABLED")]])]
    [("integrationId", .int 456),
     ("items", .list [.dict [("name", .str "org/repo"), ("status", .str "PAUSED")]])]
    [("name", PyVal.str "org/repo"), ("status", PyVal.str "PAUSED")]
    ([] : List PyVal)
    [PyVal.dict [("name", PyVal.str "org/repo"), ("status", PyVal.str "ENABLED")]]
    ([] : List PyVal)
    (fun _ => rfl) (fun _ => rfl) (fun _ => rfl)
    rfl rfl rfl rfl rfl rfl
    (fun v hv => absurd hv (List.not_mem_nil v))
    rfl

/-- C8: the wait is deterministic — two runs with identical arguments and
extensionally identical fetch collaborators (same snapshot or error, and
same latency, on every cycle) produce the same outcome: the same returned
item, or the same error with the same message, and the same fetch and
sleep counts. -/
theorem C8_deterministic {ε : Type} (env env' : Env ε) (integration_id : Int)
    (repository_name : String) (timeout_ms : Int) (interval_ms fuel : Nat)
    (hf : ∀ k, env.fetch k = env'.fetch k)
    (hl : ∀ k, env.fetchLat k = env'.fetchLat k) :
    wait_for_repo_status_paused env integration_id repository_name timeout_ms interval_ms fuel
      = wait_for_repo_status_paused env' integration_id repository_name
          timeout_ms interval_ms fuel := by
  unfold wait_for_repo_status_paused
  exact wait_from_congr env env' integration_id repository_name timeout_ms interval_ms
    (fun k => by unfold cycleObs; rw [hf k]) hl fuel 0 0

/-- C8 witness: two syntactically different but pointwise-equal
collaborators give equal results. -/
theorem C8_witness :
    wait_for_repo_status_paused
      (Env.mk (fun _ => .ok nodup_snapshot) (fun _ => 0) : Env Unit)
      456 "org/repo" 15000 1000 5
      = wait_for_repo_status_paused
        (Env.mk (fun _ => .ok nodup_snapshot) (fun k => k * 0) : Env Unit)
        456 "org/repo" 15000 1000 5 :=
  C8_deterministic
    (Env.mk (fun _ => .ok nodup_snapshot) (fun _ => 0))
    (Env.mk (fun _ => .ok nodup_snapshot) (fun k => k * 0))
    456 "org/repo" 15000 1000 5
    (fun _ => rfl) (fun k => (Nat.mul_zero k).symm)
